import Mathlib

/-!
Verification of the fraud-detection detector framework
(`backend/services/detectors/` plus `backend/models/fraud_models.py`).

The Python modules are shallowly embedded: database query results become
lists of typed rows (numeric columns as `Option ℚ`, text columns as
`Option String`, date columns as `FbDateValue`), the SQLAlchemy case store
becomes a list of `(source_table, source_record_id, detector_type)` keys
behind a result type that can also signal a failed query, and each
detector heuristic becomes a pure function from a store and a row list to
the list of candidate cases it appends.  Monetary formatting inside
human-readable titles/descriptions is abstracted by `fmtQ` (no property
depends on the rendered text); everything that feeds a comparison,
grouping key, severity, confidence or deduplication decision is modelled
directly from the source.
-/

set_option maxRecDepth 8000

namespace FraudDetection

/-! ### Enums from `backend/models/fraud_models.py` -/

/-- `FraudSeverity` enum. -/
inductive FraudSeverity
  | LOW
  | MEDIUM
  | HIGH
  | CRITICAL
deriving DecidableEq, Repr

/-- `DetectorType` enum. -/
inductive DetectorType
  | INVOICE_ANOMALY
  | FUEL_THEFT
  | DATA_MANIPULATION
  | DUPLICATE_TRANSACTION
  | EXCESSIVE_DISCOUNT
  | AFTERHOURS
  | ROUND_AMOUNT
  | SEQUENCE_GAP
deriving DecidableEq, Repr

/-! ### A model of Python `datetime.datetime` values -/

/-- A Python `datetime.datetime` (microseconds are never produced by the
parsing code under study, so they are omitted). -/
structure PyDateTime where
  year : Nat
  month : Nat
  day : Nat
  hour : Nat
  minute : Nat
  second : Nat
deriving DecidableEq, Repr

/-- Sakamoto day-of-week table. -/
def sakamotoTable : List Nat := [0, 3, 2, 5, 0, 3, 5, 1, 4, 6, 2, 4]

/-- Day of week of a Gregorian date, Python `datetime.weekday` convention:
0 = Monday, ..., 5 = Saturday, 6 = Sunday.  Sakamoto's method computes
0 = Sunday; the subtraction of `y/100` is replaced by the congruent
addition of `6 * (y/100)` modulo 7 to stay in `Nat`. -/
def pyWeekday (y m d : Nat) : Nat :=
  let yy := if m < 3 then y - 1 else y
  let sakamoto := (yy + yy / 4 + 6 * (yy / 100) + yy / 400 + sakamotoTable.getD (m - 1) 0 + d) % 7
  (sakamoto + 6) % 7

/-- `datetime.weekday()`. -/
def PyDateTime.weekday (t : PyDateTime) : Nat :=
  pyWeekday t.year t.month t.day

/-- `datetime` comparison (lexicographic on the components, which agrees
with Python's ordering on valid datetimes). -/
def PyDateTime.le (a b : PyDateTime) : Bool :=
  if a.year ≠ b.year then decide (a.year < b.year)
  else if a.month ≠ b.month then decide (a.month < b.month)
  else if a.day ≠ b.day then decide (a.day < b.day)
  else if a.hour ≠ b.hour then decide (a.hour < b.hour)
  else if a.minute ≠ b.minute then decide (a.minute < b.minute)
  else decide (a.second ≤ b.second)

/-- Zero-padded two-digit rendering (used by `date.isoformat`). -/
def pad2 (n : Nat) : String :=
  if n < 10 then "0" ++ toString n else toString n

/-- Zero-padded four-digit rendering (used by `date.isoformat`). -/
def pad4 (n : Nat) : String :=
  if n < 10 then "000" ++ toString n
  else if n < 100 then "00" ++ toString n
  else if n < 1000 then "0" ++ toString n
  else toString n

/-- `datetime.date().isoformat()`: `YYYY-MM-DD`. -/
def isoDate (t : PyDateTime) : String :=
  pad4 t.year ++ "-" ++ pad2 t.month ++ "-" ++ pad2 t.day

/-! ### Values returned by the Firebird driver for date columns -/

/-- A raw value in a date column as the Firebird driver hands it to
Python: SQL NULL, a native `datetime`, a native `date`, or a string in an
inconsistent locale format. -/
inductive FbDateValue
  | null
  | dt (d : PyDateTime)
  | date (y m d : Nat)
  | str (s : String)
deriving DecidableEq, Repr

/-! ### `BaseDetector.parse_firebird_date` (base_detector.py lines 79-124)

The string branch strips the value, truncates it to 19 characters,
normalises a `D/M/YYYY H:MM:SS` shape by zero-filling a single-digit hour
(dropping anything after the seconds, as `re.match` group substitution
does), and then tries the four `strptime` formats
`%d/%m/%Y %H:%M:%S`, `%Y-%m-%d %H:%M:%S`, `%d/%m/%Y`, `%Y-%m-%d` in
order, returning `none` when all fail.  The `strptime` emulation below
reproduces CPython's per-directive digit classes (1-2 digits with the
documented value ranges, exactly 4 digits for `%Y`), its requirement that
the whole string be consumed, and the `datetime` constructor's calendar
validation (whose failure the source swallows with a bare `except`). -/

/-- Python whitespace for `str.strip` / the `\s` regex class (ASCII part:
space, tab, newline, carriage return, vertical tab, form feed). -/
def pyIsSpace (c : Char) : Bool :=
  c == ' ' || c == '\t' || c == '\n' || c == '\r' || c.toNat == 11 || c.toNat == 12

/-- ASCII digit test. -/
def isDig (c : Char) : Bool := c.isDigit

/-- Numeric value of a digit character. -/
def digitVal (c : Char) : Nat := c.toNat - 48

/-- Value of a digit string. -/
def natOfDigits (ds : List Char) : Nat :=
  ds.foldl (fun n c => 10 * n + digitVal c) 0

/-- `str.strip()` restricted to ASCII whitespace. -/
def pyStrip (cs : List Char) : List Char :=
  ((cs.dropWhile pyIsSpace).reverse.dropWhile pyIsSpace).reverse

/-- Parse a numeric `strptime` field that CPython's generated regex
matches as one or two digits: a maximal digit run of length 1 must
satisfy `ok1`, of length 2 must satisfy `ok2`; longer runs fail (the
field is always followed by a non-digit separator or the end-of-input
check, so regex backtracking cannot split a longer run). -/
def parseNumField (ok1 ok2 : Nat → Bool) (cs : List Char) : Option (Nat × List Char) :=
  let p := cs.span isDig
  let v := natOfDigits p.1
  if p.1.length == 1 && ok1 v then some (v, p.2)
  else if p.1.length == 2 && ok2 v then some (v, p.2)
  else none

/-- `%Y`: exactly four digits. -/
def parseYear4 (cs : List Char) : Option (Nat × List Char) :=
  let p := cs.span isDig
  if p.1.length == 4 then some (natOfDigits p.1, p.2) else none

/-- A literal separator character. -/
def parseLit (c : Char) : List Char → Option (List Char)
  | [] => none
  | d :: rest => if d == c then some rest else none

/-- A whitespace chunk in the format string matches one or more
whitespace characters. -/
def parseWs (cs : List Char) : Option (List Char) :=
  let p := cs.span pyIsSpace
  if p.1.isEmpty then none else some p.2

/-- `%d`: `3[01]|[12]\d|0[1-9]|[1-9]`. -/
def parseDirD (cs : List Char) : Option (Nat × List Char) :=
  parseNumField (fun v => decide (1 ≤ v)) (fun v => decide (1 ≤ v ∧ v ≤ 31)) cs

/-- `%m`: `1[0-2]|0[1-9]|[1-9]`. -/
def parseDirM (cs : List Char) : Option (Nat × List Char) :=
  parseNumField (fun v => decide (1 ≤ v)) (fun v => decide (1 ≤ v ∧ v ≤ 12)) cs

/-- `%H`: `2[0-3]|[0-1]\d|\d`. -/
def parseDirH (cs : List Char) : Option (Nat × List Char) :=
  parseNumField (fun _ => true) (fun v => decide (v ≤ 23)) cs

/-- `%M`: `[0-5]\d|\d`. -/
def parseDirMin (cs : List Char) : Option (Nat × List Char) :=
  parseNumField (fun _ => true) (fun v => decide (v ≤ 59)) cs

/-- `%S`: `6[0-1]|[0-5]\d|\d`. -/
def parseDirS (cs : List Char) : Option (Nat × List Char) :=
  parseNumField (fun _ => true) (fun v => decide (v ≤ 61)) cs

/-- Gregorian leap year. -/
def isLeapYear (y : Nat) : Bool :=
  y % 4 == 0 && (y % 100 != 0 || y % 400 == 0)

/-- Days in a month. -/
def daysInMonth (y m : Nat) : Nat :=
  if m = 2 then (if isLeapYear y then 29 else 28)
  else if m = 4 ∨ m = 6 ∨ m = 9 ∨ m = 11 then 30
  else 31

/-- The `datetime(...)` constructor: calendar validation; out-of-range
components raise `ValueError`, which the source's bare `except` turns
into trying the next format. -/
def mkValidDateTime (y m d h mi s : Nat) : Option PyDateTime :=
  if 1 ≤ y ∧ 1 ≤ m ∧ m ≤ 12 ∧ 1 ≤ d ∧ d ≤ daysInMonth y m ∧ h ≤ 23 ∧ mi ≤ 59 ∧ s ≤ 59
  then some ⟨y, m, d, h, mi, s⟩ else none

/-- `D/M/YYYY` prefix shared by formats 1 and 3. -/
def parseDateDMY (cs : List Char) : Option (Nat × Nat × Nat × List Char) := do
  let (d, cs) ← parseDirD cs
  let cs ← parseLit '/' cs
  let (m, cs) ← parseDirM cs
  let cs ← parseLit '/' cs
  let (y, cs) ← parseYear4 cs
  pure (d, m, y, cs)

/-- `YYYY-M-D` prefix shared by formats 2 and 4. -/
def parseDateYMD (cs : List Char) : Option (Nat × Nat × Nat × List Char) := do
  let (y, cs) ← parseYear4 cs
  let cs ← parseLit '-' cs
  let (m, cs) ← parseDirM cs
  let cs ← parseLit '-' cs
  let (d, cs) ← parseDirD cs
  pure (d, m, y, cs)

/-- `H:MM:SS` suffix of formats 1 and 2. -/
def parseTimeHMS (cs : List Char) : Option (Nat × Nat × Nat × List Char) := do
  let (h, cs) ← parseDirH cs
  let cs ← parseLit ':' cs
  let (mi, cs) ← parseDirMin cs
  let cs ← parseLit ':' cs
  let (s, cs) ← parseDirS cs
  pure (h, mi, s, cs)

/-- `strptime` with format `%d/%m/%Y %H:%M:%S`. -/
def strptimeDMYHMS (cs : List Char) : Option PyDateTime := do
  let (d, m, y, cs) ← parseDateDMY cs
  let cs ← parseWs cs
  let (h, mi, s, cs) ← parseTimeHMS cs
  if cs.isEmpty then mkValidDateTime y m d h mi s else none

/-- `strptime` with format `%Y-%m-%d %H:%M:%S`. -/
def strptimeYMDHMS (cs : List Char) : Option PyDateTime := do
  let (d, m, y, cs) ← parseDateYMD cs
  let cs ← parseWs cs
  let (h, mi, s, cs) ← parseTimeHMS cs
  if cs.isEmpty then mkValidDateTime y m d h mi s else none

/-- `strptime` with format `%d/%m/%Y`. -/
def strptimeDMY (cs : List Char) : Option PyDateTime := do
  let (d, m, y, cs) ← parseDateDMY cs
  if cs.isEmpty then mkValidDateTime y m d 0 0 0 else none

/-- `strptime` with format `%Y-%m-%d`. -/
def strptimeYMD (cs : List Char) : Option PyDateTime := do
  let (d, m, y, cs) ← parseDateYMD cs
  if cs.isEmpty then mkValidDateTime y m d 0 0 0 else none

/-- One or two digits kept verbatim (regex `\d{1,2}` before a rigid
separator). -/
def grabDigits12 (cs : List Char) : Option (List Char × List Char) :=
  let p := cs.span isDig
  if p.1.length == 1 || p.1.length == 2 then some (p.1, p.2) else none

/-- Exactly four digits kept verbatim (regex `\d{4}` before `\s+`). -/
def grabDigits4 (cs : List Char) : Option (List Char × List Char) :=
  let p := cs.span isDig
  if p.1.length == 4 then some (p.1, p.2) else none

/-- Exactly two digits kept verbatim (regex `\d{2}` before a rigid
separator: a longer run cannot be split). -/
def grabDigits2 (cs : List Char) : Option (List Char × List Char) :=
  let p := cs.span isDig
  if p.1.length == 2 then some (p.1, p.2) else none

/-- The final `\d{2}` of the normalisation regex: nothing follows it in
the pattern, so it takes the first two digits of a run and the rest of
the input is dropped by the group substitution. -/
def grabTwoDigitsOfRun (cs : List Char) : Option (List Char × List Char) :=
  match cs with
  | c1 :: c2 :: rest => if isDig c1 && isDig c2 then some ([c1, c2], rest) else none
  | _ => none

/-- The source's single-digit-hour normalisation:
`re.match` with `(\d{1,2}/\d{1,2}/\d{4})\s+(\d{1,2}):(\d{2}):(\d{2})`;
on success the string is rebuilt as `date_part hour.zfill(2):MM:SS`
(one space, trailing characters dropped). -/
def normalizeShortHour (cs : List Char) : Option (List Char) := do
  let (dd, cs) ← grabDigits12 cs
  let cs ← parseLit '/' cs
  let (mm, cs) ← grabDigits12 cs
  let cs ← parseLit '/' cs
  let (yy, cs) ← grabDigits4 cs
  let cs ← parseWs cs
  let (hh, cs) ← grabDigits12 cs
  let cs ← parseLit ':' cs
  let (mi, cs) ← grabDigits2 cs
  let cs ← parseLit ':' cs
  let (ss, _) ← grabTwoDigitsOfRun cs
  pure (dd ++ ['/'] ++ mm ++ ['/'] ++ yy ++ [' '] ++
        (if hh.length == 1 then '0' :: hh else hh) ++ [':'] ++ mi ++ [':'] ++ ss)

/-- The string branch of `parse_firebird_date`. -/
def parseFbDateString (s : String) : Option PyDateTime :=
  let cs0 := (pyStrip s.toList).take 19
  let cs := (normalizeShortHour cs0).getD cs0
  (strptimeDMYHMS cs).orElse fun _ =>
    (strptimeYMDHMS cs).orElse fun _ =>
      (strptimeDMY cs).orElse fun _ => strptimeYMD cs

/-- `BaseDetector.parse_firebird_date`: `None` stays `None`, a
`datetime` is returned unchanged, a `date` is combined with midnight,
and a string goes through normalisation and the four formats; anything
unparseable yields `None` (never raises). -/
def parse_firebird_date : FbDateValue → Option PyDateTime
  | .null => none
  | .dt d => some d
  | .date y m d => some ⟨y, m, d, 0, 0, 0⟩
  | .str s => parseFbDateString s

/-! ### `safe_float` / `safe_divide` (base_detector.py lines 126-142)

Numeric database columns reach Python as numbers or `None`; amounts are
modelled as `Option ℚ` (exact rationals standing for the floats, none of
whose uses here depend on rounding). -/

/-- `BaseDetector.safe_float`: `None` becomes the default. -/
def safe_float (v : Option ℚ) (default : ℚ) : ℚ :=
  match v with
  | none => default
  | some q => q

/-- `BaseDetector.safe_divide`: a zero denominator yields the default
instead of raising `ZeroDivisionError`. -/
def safe_divide (numerator denominator : Option ℚ) (default : ℚ) : ℚ :=
  let num := safe_float numerator 0
  let den := safe_float denominator 0
  if den = 0 then default else num / den

/-! ### Python truthiness of the values the detectors test with `if x:` -/

/-- Truthiness of an optional string: `None` and the empty string are
falsy. -/
def truthyOptStr : Option String → Bool
  | none => false
  | some s => !s.isEmpty

/-- Truthiness of an optional number: `None` and zero are falsy. -/
def truthyOptQ : Option ℚ → Bool
  | none => false
  | some q => q != 0

/-- Truthiness of a raw date value: `None` and the empty string are
falsy, any `datetime`/`date` is truthy. -/
def truthyFbDate : FbDateValue → Bool
  | .null => false
  | .dt _ => true
  | .date _ _ _ => true
  | .str s => !s.isEmpty

/-- Python `str(x)` on an optional string: `str(None)` is the literal
text `None`. -/
def pyStr (o : Option String) : String :=
  match o with
  | none => "None"
  | some s => s

/-- Rendering of a rational inside a human-readable title/description.
The Python sources use format specs such as `:,.2f`; nothing proved here
depends on the rendered text, so the exact spelling is abstracted. -/
def fmtQ (q : ℚ) : String := toString q

/-! ### The Case Store (`FraudCase` rows) and
`BaseDetector.check_existing_case` (base_detector.py lines 58-77) -/

/-- The deduplication key of a persisted fraud case. -/
structure CaseKey where
  source_table : String
  source_record_id : String
  detector_type : DetectorType
deriving DecidableEq, Repr

/-- The case store as seen by the duplicate check: either the list of
keys of the persisted cases, or a store whose query raises. -/
inductive CaseStore
  | ok (keys : List CaseKey)
  | queryError
deriving DecidableEq, Repr

/-- Keys visible in a store (`queryError` exposes none). -/
def storeKeys : CaseStore → List CaseKey
  | .ok keys => keys
  | .queryError => []

/-- `BaseDetector.check_existing_case`: queries the store for a case
with the given `(source_table, source_record_id, detector_type)`; any
exception from the query is caught and reported as `False`
("no existing case"). -/
def check_existing_case (store : CaseStore) (source_table source_record_id : String)
    (dt : DetectorType) : Bool :=
  match store with
  | .ok keys => keys.contains ⟨source_table, source_record_id, dt⟩
  | .queryError => false

/-! ### Candidate fraud cases and `BaseDetector.create_fraud_case`
(base_detector.py lines 144-187) -/

/-- A value of the `detection_rules` evidence payload (the source builds
a dict and serialises it with `json.dumps`; the serialisation is kept
structured here). -/
inductive RuleVal
  | s (v : String)
  | q (v : ℚ)
  | n (v : Nat)
deriving DecidableEq, Repr

/-- The dict returned by `create_fraud_case`. -/
structure Candidate where
  title : String
  description : String
  detector_type : DetectorType
  severity : FraudSeverity
  amount : Option ℚ
  source_table : Option String
  source_record_id : Option String
  client_code : Option String
  client_name : Option String
  client_ruc : Option String
  transaction_date : Option PyDateTime
  confidence_score : Option ℚ
  detection_rules : Option (List (String × RuleVal))
  created_by : String
deriving DecidableEq, Repr

/-- `str(x) if x else None` on an optional string field. -/
def strFieldIfTruthy (o : Option String) : Option String :=
  if truthyOptStr o then some (pyStr o) else none

/-- The dict literal built at the end of `create_fraud_case`.
`transaction_date` is re-parsed when truthy; a falsy raw date (`None`,
which is the only falsy value the detectors ever pass) is stored as-is,
i.e. as no timestamp. -/
def buildFraudCase (dt : DetectorType) (title description : String)
    (severity : FraudSeverity) (amount : Option ℚ)
    (source_table source_record_id client_code client_name client_ruc : Option String)
    (transaction_date : FbDateValue) (confidence_score : Option ℚ)
    (detection_rules : Option (List (String × RuleVal))) : Candidate :=
  { title := title
    description := description
    detector_type := dt
    severity := severity
    amount := if truthyOptQ amount then some (safe_float amount 0) else none
    source_table := source_table
    source_record_id := strFieldIfTruthy source_record_id
    client_code := strFieldIfTruthy client_code
    client_name := strFieldIfTruthy client_name
    client_ruc := strFieldIfTruthy client_ruc
    transaction_date :=
      if truthyFbDate transaction_date then parse_firebird_date transaction_date else none
    confidence_score := confidence_score
    detection_rules :=
      match detection_rules with
      | some l => if l.isEmpty then none else some l
      | none => none
    created_by := "SYSTEM" }

/-- `BaseDetector.create_fraud_case`: when both `source_table` and
`source_record_id` are truthy, the candidate's key is checked against
the store with the class's own `detector_type`; an existing case makes
the method return `None` (the candidate is discarded), otherwise the
dict is returned. -/
def create_fraud_case (dt : DetectorType) (store : CaseStore) (title description : String)
    (severity : FraudSeverity) (amount : Option ℚ)
    (source_table source_record_id client_code client_name client_ruc : Option String)
    (transaction_date : FbDateValue) (confidence_score : Option ℚ)
    (detection_rules : Option (List (String × RuleVal))) : Option Candidate :=
  if truthyOptStr source_table && truthyOptStr source_record_id
      && check_existing_case store (pyStr source_table) (pyStr source_record_id) dt
  then none
  else some (buildFraudCase dt title description severity amount source_table
    source_record_id client_code client_name client_ruc transaction_date
    confidence_score detection_rules)

/-! ### Ordered grouping (Python dict grouping with insertion order) -/

/-- Append `a` to the group of key `k`, creating the group at the end if
it is new (`dict` insertion-order semantics). -/
def insertGrouped {κ α : Type} [DecidableEq κ] (k : κ) (a : α) :
    List (κ × List α) → List (κ × List α)
  | [] => [(k, [a])]
  | (k0, xs) :: rest =>
      if k = k0 then (k0, xs ++ [a]) :: rest else (k0, xs) :: insertGrouped k a rest

/-- Group a list by a key, keeping first-seen key order and element
order within each group. -/
def groupByKey {κ α : Type} [DecidableEq κ] (key : α → κ) (l : List α) :
    List (κ × List α) :=
  l.foldl (fun acc a => insertGrouped (key a) a acc) []

/-! ### `InvoiceAnomalyDetector` (invoice_anomaly_detector.py)

Each heuristic takes the case store and the row list its SQL query
returned (`DCTO` left-joined with `CLIE`, restricted by the query's
`WHERE` clause to document types `FC`/`FV` in the lookback window); the
row dicts always contain every selected column, so `dict.get` defaults
in the source never fire and a SQL `NULL` is an `Option`-`none` field.
The heuristic returns the candidate dicts it appends to `self.results`
(`detect()` then drops the `None`s, which is the `filterMap` below). -/

/-- A row of the invoice queries. -/
structure DctoRow where
  SEC_DCTO : Option String
  TIP_DCTO : Option String
  NUM_DCTO : Option String
  FEC_DCTO : FbDateValue
  COD_CLIE : Option String
  TNI_DCTO : Option ℚ
  TSI_DCTO : Option ℚ
  IVA_DCTO : Option ℚ
  DSC_DCTO : Option ℚ
  NOM_CLIE : Option String
  RUC_CLIE : Option String
deriving DecidableEq, Repr

/-- The invoice total computed by `_detect_montos_redondos` and
`_detect_fuera_horario`: `safe_float(TNI) + safe_float(TSI) +
safe_float(IVA)`. -/
def invoiceTotal (f : DctoRow) : ℚ :=
  safe_float f.TNI_DCTO 0 + safe_float f.TSI_DCTO 0 + safe_float f.IVA_DCTO 0

/-- `total % 100 == 0` on Python floats holds exactly when the amount is
an exact multiple of 100, i.e. when `total / 100` is an integer. -/
def isMultipleOf100 (t : ℚ) : Bool := (t / 100).den == 1

/-- The round-amount test of `_detect_montos_redondos`:
`total > 500 and total % 100 == 0`. -/
def isRoundTotal (t : ℚ) : Bool := decide (500 < t) && isMultipleOf100 t

/-- `NOM_CLIE` of the first invoice of a group (`facts[0]`; groups are
never empty where the source indexes them). -/
def headNom (facts : List DctoRow) : Option String :=
  match facts.head? with
  | some f => f.NOM_CLIE
  | none => none

/-- `RUC_CLIE` of the first invoice of a group. -/
def headRuc (facts : List DctoRow) : Option String :=
  match facts.head? with
  | some f => f.RUC_CLIE
  | none => none

/-- `FEC_DCTO` of the last invoice of a group (`facts[-1]`). -/
def lastFec (facts : List DctoRow) : FbDateValue :=
  match facts.getLast? with
  | some f => f.FEC_DCTO
  | none => .null

/-- The synthesized group key of the round-amount heuristic:
`f"ROUND_{cliente}_{len(facts)}"`. -/
def roundGroupId (cliente : Option String) (count : Nat) : String :=
  "ROUND_" ++ pyStr cliente ++ "_" ++ toString count

/-- The body of the per-client loop of `_detect_montos_redondos`: groups
of at least 3 round invoices pass an explicit duplicate check keyed with
`DetectorType.ROUND_AMOUNT` and are then handed to `create_fraud_case`
(which dedup-checks again with the class's `INVOICE_ANOMALY` kind). -/
def emitRoundGroup (store : CaseStore) (g : Option String × List DctoRow) :
    Option Candidate :=
  let cliente := g.1
  let facts := g.2
  if 3 ≤ facts.length then
    let groupId := roundGroupId cliente facts.length
    if check_existing_case store ("DCTO") groupId .ROUND_AMOUNT then none
    else
      let totalAmount := (facts.map invoiceTotal).sum
      create_fraud_case .INVOICE_ANOMALY store
        ("Montos redondos sospechosos - Cliente " ++ pyStr (headNom facts))
        ("Se detectaron " ++ toString facts.length ++
         " facturas con montos exactamente redondos. Total acumulado: $" ++ fmtQ totalAmount)
        (if facts.length < 5 then .MEDIUM else .HIGH)
        (some totalAmount) (some ("DCTO")) (some groupId) cliente (headNom facts)
        (headRuc facts) (lastFec facts) (some 75)
        (some [(("rule"), .s ("montos_redondos")), (("count"), .n facts.length)])
  else none

/-- `InvoiceAnomalyDetector._detect_montos_redondos` (lines 61-121):
filter to round totals, group by `COD_CLIE`, emit one candidate per
qualifying group. -/
def _detect_montos_redondos (store : CaseStore) (rows : List DctoRow) :
    List Candidate :=
  let roundRows := rows.filter fun f => isRoundTotal (invoiceTotal f)
  (groupByKey (fun f => f.COD_CLIE) roundRows).filterMap (emitRoundGroup store)

/-- The discount percentage of `_detect_descuentos_excesivos`:
`safe_divide(descuento, total_neto, 0) * 100`. -/
def descuentoPct (descuento totalNeto : ℚ) : ℚ :=
  safe_divide (some descuento) (some totalNeto) 0 * 100

/-- The body of the per-invoice loop of `_detect_descuentos_excesivos`:
positive discount and net, percentage strictly above 30, severity HIGH
above 50, confidence 85, keyed by the invoice's own `SEC_DCTO`. -/
def emitDescuento (store : CaseStore) (f : DctoRow) : Option Candidate :=
  let descuento := safe_float f.DSC_DCTO 0
  let totalNeto := safe_float f.TNI_DCTO 0
  if 0 < descuento ∧ 0 < totalNeto then
    let pct := descuentoPct descuento totalNeto
    if 30 < pct then
      create_fraud_case .INVOICE_ANOMALY store
        ("Descuento excesivo - Factura " ++ pyStr f.NUM_DCTO)
        ("Descuento del " ++ fmtQ pct ++ "% detectado. Monto original: $" ++
         fmtQ totalNeto ++ ", Descuento: $" ++ fmtQ descuento)
        (if 50 < pct then .HIGH else .MEDIUM)
        (some descuento) (some ("DCTO")) (some (pyStr f.SEC_DCTO)) f.COD_CLIE
        f.NOM_CLIE f.RUC_CLIE f.FEC_DCTO (some 85)
        (some [(("rule"), .s ("descuento_excesivo")), (("porcentaje"), .q pct)])
    else none
  else none

/-- `InvoiceAnomalyDetector._detect_descuentos_excesivos`
(lines 123-171).  The SQL already restricts to rows with non-null
positive `DSC_DCTO`/`TNI_DCTO`; the Python re-checks positivity after
coercion, so the function is total over arbitrary rows. -/
def _detect_descuentos_excesivos (store : CaseStore) (rows : List DctoRow) :
    List Candidate :=
  rows.filterMap (emitDescuento store)

/-- The after-hours test of `_detect_fuera_horario`: hour before 7,
after 20, or a Saturday/Sunday (`weekday() in [5, 6]`). -/
def isAfterHoursDT (t : PyDateTime) : Bool :=
  decide (t.hour < 7) || decide (20 < t.hour) || t.weekday == 5 || t.weekday == 6

/-- The invoices that count as after-hours: those whose raw date parses
and whose parsed timestamp satisfies the test (unparseable dates are
skipped by the `if fecha:` guard). -/
def afterHoursRows (rows : List DctoRow) : List DctoRow :=
  rows.filter fun f =>
    match parse_firebird_date f.FEC_DCTO with
    | some t => isAfterHoursDT t
    | none => false

/-- The synthesized group key of the after-hours heuristic:
`f"AFTERHOURS_{client}_{len(facts)}"`. -/
def afterhoursGroupId (cliente : Option String) (count : Nat) : String :=
  "AFTERHOURS_" ++ pyStr cliente ++ "_" ++ toString count

/-- The body of the per-client loop of `_detect_fuera_horario`: groups
of at least 2 after-hours invoices pass an explicit duplicate check
keyed with `DetectorType.AFTERHOURS` and are then handed to
`create_fraud_case` (no `client_ruc` argument is passed here). -/
def emitAfterhoursGroup (store : CaseStore) (g : Option String × List DctoRow) :
    Option Candidate :=
  let cliente := g.1
  let facts := g.2
  if 2 ≤ facts.length then
    let groupId := afterhoursGroupId cliente facts.length
    if check_existing_case store ("DCTO") groupId .AFTERHOURS then none
    else
      let total := (facts.map invoiceTotal).sum
      create_fraud_case .INVOICE_ANOMALY store
        ("Transacciones fuera de horario - " ++ pyStr (headNom facts))
        ("Se detectaron " ++ toString facts.length ++
         " transacciones fuera del horario laboral. Total: $" ++ fmtQ total)
        (if facts.length < 5 then .MEDIUM else .HIGH)
        (some total) (some ("DCTO")) (some groupId) cliente (headNom facts) none
        (lastFec facts) (some 80)
        (some [(("rule"), .s ("fuera_horario")), (("count"), .n facts.length)])
  else none

/-- `InvoiceAnomalyDetector._detect_fuera_horario` (lines 173-241). -/
def _detect_fuera_horario (store : CaseStore) (rows : List DctoRow) :
    List Candidate :=
  (groupByKey (fun f => f.COD_CLIE) (afterHoursRows rows)).filterMap
    (emitAfterhoursGroup store)

/-! ### `FuelTheftDetector._detect_consumo_anormal`
(fuel_theft_detector.py lines 62-109) -/

/-- A row of the `DESP` fuel-dispatch table. -/
structure DespRow where
  NUM_DESP : Option String
  FEC_DESP : FbDateValue
  CAN_DESP : Option ℚ
  VTO_DESP : Option ℚ
  COD_PROD : Option String
  NOM_PROD : Option String
  COD_CLIE : Option String
deriving DecidableEq, Repr

/-- The client lookup dict built by `_get_client_info` from the `CLIE`
table (name and tax id per client code). -/
structure ClientInfo where
  nombre : Option String
  ruc : Option String
deriving DecidableEq, Repr

/-- `clientes.get(cod_cliente, {})`: a missing or `None` code degrades
to an empty info dict (unknown client). -/
def clientLookup (clientes : List (String × ClientInfo)) (cod : Option String) :
    ClientInfo :=
  match cod with
  | none => ⟨none, none⟩
  | some c =>
      match clientes.find? (fun p => p.1 == c) with
      | some p => p.2
      | none => ⟨none, none⟩

/-- The SQL pre-filter of the consumo query: `WHERE CAN_DESP > 150`
(a SQL NULL fails the comparison). -/
def despQueryCan150 (desp : List DespRow) : List DespRow :=
  desp.filter fun d =>
    match d.CAN_DESP with
    | some q => decide (150 < q)
    | none => false

/-- The dispatched quantity after coercion:
`cantidad = safe_float(d.get('CAN_DESP', 0))`. -/
def dispatchQty (d : DespRow) : ℚ := safe_float d.CAN_DESP 0

/-- The body of the per-dispatch loop of `_detect_consumo_anormal`:
quantity strictly above 200 emits a candidate (HIGH above 300,
confidence 85) keyed by the dispatch's own `NUM_DESP`; `fecha_desp` is
parsed before being handed to `create_fraud_case`. -/
def emitConsumo (store : CaseStore) (clientes : List (String × ClientInfo))
    (d : DespRow) : Option Candidate :=
  let cantidad := dispatchQty d
  if 200 < cantidad then
    let info := clientLookup clientes d.COD_CLIE
    let fechaDesp : FbDateValue :=
      match parse_firebird_date d.FEC_DESP with
      | some t => .dt t
      | none => .null
    create_fraud_case .FUEL_THEFT store
      ("Despacho excesivo de combustible - " ++ fmtQ cantidad ++ " galones")
      ("Despacho anormal de " ++ fmtQ cantidad ++ " galones detectado. Valor: $" ++
       fmtQ (safe_float d.VTO_DESP 0))
      (if 300 < cantidad then .HIGH else .MEDIUM)
      d.VTO_DESP (some ("DESP")) (some (pyStr d.NUM_DESP)) d.COD_CLIE info.nombre
      info.ruc fechaDesp (some 85)
      (some [(("rule"), .s ("consumo_excesivo")), (("cantidad"), .q cantidad)])
  else none

/-- `FuelTheftDetector._detect_consumo_anormal`: runs the pre-filtered
query over the full `DESP` table and loops the emitter over the result. -/
def _detect_consumo_anormal (store : CaseStore)
    (clientes : List (String × ClientInfo)) (desp : List DespRow) :
    List Candidate :=
  (despQueryCan150 desp).filterMap (emitConsumo store clientes)

/-! ### `DataManipulationDetector._detect_cambios_masivos`
(data_manipulation_detector.py lines 64-118) -/

/-- A row of the `XDCTO` edit-audit query. -/
structure XdctoRow where
  COD_XUSUA : Option String
  FEC_XDCTO : FbDateValue
deriving DecidableEq, Repr

/-- A `(user, calendar day)` accumulator entry of `usuario_cambios`. -/
structure MassGroup where
  usuario : Option String
  fecha : PyDateTime
  count : Nat
deriving DecidableEq, Repr

/-- The grouping key `f"{usuario}_{fecha.date().isoformat()}"`. -/
def massKey (usuario : Option String) (fecha : PyDateTime) : String :=
  pyStr usuario ++ "_" ++ isoDate fecha

/-- One step of the accumulation: bump the count of an existing key or
append a fresh entry recording the first-seen timestamp. -/
def addMassChange (usuario : Option String) (fecha : PyDateTime) :
    List (String × MassGroup) → List (String × MassGroup)
  | [] => [(massKey usuario fecha, ⟨usuario, fecha, 1⟩)]
  | (k, g) :: rest =>
      if massKey usuario fecha = k then (k, { g with count := g.count + 1 }) :: rest
      else (k, g) :: addMassChange usuario fecha rest

/-- The `usuario_cambios` dict: rows whose date parses and lies within
the 7-day window (`fecha >= fecha_limite`) are counted per
`(user, day)`. -/
def massGroups (fechaLimite : PyDateTime) (rows : List XdctoRow) :
    List (String × MassGroup) :=
  rows.foldl
    (fun acc c =>
      match parse_firebird_date c.FEC_XDCTO with
      | some fecha =>
          if PyDateTime.le fechaLimite fecha then addMassChange c.COD_XUSUA fecha acc
          else acc
      | none => acc)
    []

/-- The synthesized group key `f"MASSIVE_{key}_{count}"`. -/
def massGroupId (key : String) (count : Nat) : String :=
  "MASSIVE_" ++ key ++ "_" ++ toString count

/-- The detection loop of `_detect_cambios_masivos`.  For a group with
more than 20 edits that passes the duplicate check (keyed with the
class's `DATA_MANIPULATION` kind, the default of `check_existing_case`),
the source calls `create_fraud_case(..., created_by=info['usuario'],
...)`.  `BaseDetector.create_fraud_case` has no `created_by` parameter,
so Python raises `TypeError` at the call, the method's
`except Exception` handler catches it, and the loop aborts with whatever
had been appended so far (nothing: every append is preceded by that
raising call). -/
def cambiosMasivosLoop (store : CaseStore) (acc : List Candidate) :
    List (String × MassGroup) → List Candidate
  | [] => acc
  | (k, g) :: rest =>
      if 20 < g.count then
        if check_existing_case store ("XDCTO") (massGroupId k g.count) .DATA_MANIPULATION
        then cambiosMasivosLoop store acc rest
        else acc
      else cambiosMasivosLoop store acc rest

/-- `DataManipulationDetector._detect_cambios_masivos`: the candidates
the heuristic contributes to `self.results`. -/
def _detect_cambios_masivos (store : CaseStore) (fechaLimite : PyDateTime)
    (rows : List XdctoRow) : List Candidate :=
  cambiosMasivosLoop store [] (massGroups fechaLimite rows)

/-! ### `DataManipulationDetector._detect_secuencias_faltantes`
(data_manipulation_detector.py lines 120-197) -/

/-- A per-document entry of `by_tipo`: the extracted number, the raw
document number and the parsed date. -/
structure SeqDoc where
  numero : Nat
  num_dcto : Option String
  fecha : Option PyDateTime
deriving DecidableEq, Repr

/-- `re.search(r'(\d+)', s)` followed by `int(...)`: the first maximal
digit run of the string, if any. -/
def extractFirstNumber (s : String) : Option Nat :=
  let ds := (s.toList.dropWhile (fun c => !isDig c)).takeWhile isDig
  if ds.isEmpty then none else some (natOfDigits ds)

/-- Build the `by_tipo` entry of one row; rows without an extractable
number are skipped. -/
def toSeqDoc (r : DctoRow) : Option SeqDoc :=
  match extractFirstNumber (pyStr r.NUM_DCTO) with
  | some n => some ⟨n, r.NUM_DCTO, parse_firebird_date r.FEC_DCTO⟩
  | none => none

/-- `by_tipo`: group the query rows by `TIP_DCTO` and keep, per type,
the documents with an extractable number. -/
def seqGroups (rows : List DctoRow) : List (Option String × List SeqDoc) :=
  (groupByKey (fun r => r.TIP_DCTO) rows).map fun g => (g.1, g.2.filterMap toSeqDoc)

/-- Insert a document behind the already-placed ones of lower-or-equal
number (the insertion step of a stable ascending sort). -/
def insertSorted (a : SeqDoc) : List SeqDoc → List SeqDoc
  | [] => [a]
  | b :: rest =>
      if b.numero ≤ a.numero then b :: insertSorted a rest else a :: b :: rest

/-- `docs.sort(key=lambda x: x['numero'])`: Python's sort is stable, and
a stable ascending sort has a unique result, here computed by insertion
sort. -/
def seqSorted (docs : List SeqDoc) : List SeqDoc :=
  docs.foldl (fun acc d => insertSorted d acc) []

/-- The consecutive gaps strictly larger than 10 of the sorted list. -/
def gapSizes (docs : List SeqDoc) : List Nat :=
  (docs.zip docs.tail).filterMap fun p =>
    if 10 < p.2.numero - p.1.numero then some (p.2.numero - p.1.numero) else none

/-- The body of the per-type loop of `_detect_secuencias_faltantes`:
types with fewer than 10 extractable documents are skipped outright
(`continue`); otherwise the sorted consecutive gaps above 10 are
collected and a candidate is emitted when at least 2 exist, keyed by
`f"GAPS_{tipo}_{total_gap}"` with an explicit duplicate check on
`DetectorType.SEQUENCE_GAP`. -/
def emitSeqGaps (store : CaseStore) (tipo : Option String) (docs : List SeqDoc) :
    Option Candidate :=
  if docs.length < 10 then none
  else
    let gaps := gapSizes (seqSorted docs)
    if 2 ≤ gaps.length then
      let totalGap := gaps.sum
      let groupId := "GAPS_" ++ pyStr tipo ++ "_" ++ toString totalGap
      if check_existing_case store ("DCTO") groupId .SEQUENCE_GAP then none
      else
        create_fraud_case .DATA_MANIPULATION store
          ("Secuencias faltantes en " ++ pyStr tipo)
          ("Se detectaron " ++ toString gaps.length ++
           " gaps en la numeracion. Total de numeros faltantes: " ++ toString totalGap)
          (if totalGap < 50 then .MEDIUM else .HIGH)
          none (some ("DCTO")) (some groupId) none none none .null (some 70)
          (some [(("rule"), .s ("secuencia_faltante")), (("gaps"), .n gaps.length),
                 (("total"), .n totalGap)])
    else none

/-- `DataManipulationDetector._detect_secuencias_faltantes`. -/
def _detect_secuencias_faltantes (store : CaseStore) (rows : List DctoRow) :
    List Candidate :=
  (seqGroups rows).filterMap fun g => emitSeqGaps store g.1 g.2

/-! ### `DetectorFactory.run_all_detectors`
(detector_factory.py lines 114-130) -/

/-- A registered detector as the factory's run loop sees it: its kind
key, its `enabled_by_default` flag, and the outcome of calling
`detect()` (a result list, or a raised exception). -/
structure DetectorSpec where
  kind : String
  enabled : Bool
  run : Except String (List Candidate)

/-- `DetectorFactory.run_all_detectors`: every enabled detector
contributes an entry; an exception anywhere in its try-block is caught
and that detector's entry becomes the empty list, without affecting the
other detectors. -/
def run_all_detectors (ds : List DetectorSpec) : List (String × List Candidate) :=
  ds.foldl
    (fun results d =>
      if d.enabled then
        match d.run with
        | .ok cases => results ++ [(d.kind, cases)]
        | .error _ => results ++ [(d.kind, [])]
      else results)
    []

/-! ### General lemmas shared by the claim proofs -/

/-- A `filterMap` whose function succeeds exactly on the elements kept
by a filter is pointwise related to that filter. -/
theorem forall₂_filterMap_filter {α β : Type} (f : α → Option β) (p : α → Bool)
    (R : β → α → Prop)
    (hnone : ∀ a, f a = none ↔ p a = false)
    (hsome : ∀ a b, f a = some b → R b a) :
    ∀ l : List α, List.Forall₂ R (l.filterMap f) (l.filter p)
  | [] => by simp
  | a :: t => by
    rcases hfa : f a with _ | b
    · have hp : p a = false := (hnone a).mp hfa
      simpa [List.filterMap_cons, List.filter_cons, hfa, hp] using
        forall₂_filterMap_filter f p R hnone hsome t
    · have hp : p a = true := by
        rcases hpa : p a with _ | _
        · exact absurd ((hnone a).mpr hpa) (by simp [hfa])
        · rfl
      simp only [List.filterMap_cons, hfa, List.filter_cons, hp, if_true]
      exact List.Forall₂.cons (hsome a b hfa) (forall₂_filterMap_filter f p R hnone hsome t)

/-- A string with positive length is not empty. -/
theorem isEmpty_eq_false_of_length_pos (s : String) (h : 0 < s.length) :
    s.isEmpty = false := by
  rcases hb : s.isEmpty with _ | _
  · rfl
  · have h2 := (String.isEmpty_iff s).mp hb
    rw [h2] at h
    simp [String.length_empty] at h

/-- The synthesized group keys are never empty (they all start with a
non-empty literal prefix). -/
theorem groupId_isEmpty_false (pre s t : String) (hpre : 0 < pre.length) :
    (pre ++ s ++ "_" ++ t).isEmpty = false := by
  apply isEmpty_eq_false_of_length_pos
  rw [String.length_append, String.length_append, String.length_append]
  omega

/-! ### Claim theorems -/

/-- C7: the safe coercion helpers are total by construction; in
particular the malformed string `31/2/2025 9:5:3` (day 31 of February,
single-digit time components) parses to no timestamp rather than
raising, and `safe_divide` returns the supplied default whenever the
denominator coerces to zero. -/
theorem claim_C7_safe_coercion_total :
    parse_firebird_date (.str ("31/2/2025 9:5:3")) = none ∧
    (∀ (numerator denominator : Option ℚ) (default : ℚ),
      safe_float denominator 0 = 0 →
      safe_divide numerator denominator default = default) := by
  constructor
  · rfl
  · intro numerator denominator default h
    simp [safe_divide, h]

/-- C7 witness: the totality statement applied to a concrete zero
denominator. -/
theorem claim_C7_safe_coercion_total_witness :
    safe_float (some 0) 0 = 0 ∧ safe_divide (some 5) (some 0) 42 = 42 :=
  ⟨rfl, claim_C7_safe_coercion_total.2 (some 5) (some 0) 42 rfl⟩

/-- C10: the duplicate check fails open — a store whose query raises
makes `check_existing_case` answer `False`, so `create_fraud_case`
returns the candidate dict instead of suppressing it. -/
theorem claim_C10_dedup_fails_open :
    (∀ (tbl rid : String) (dt : DetectorType),
      check_existing_case .queryError tbl rid dt = false) ∧
    (∀ (dt : DetectorType) (title desc : String) (sev : FraudSeverity)
       (amount : Option ℚ) (st srid cc cn cr : Option String) (td : FbDateValue)
       (cs : Option ℚ) (dr : Option (List (String × RuleVal))),
      create_fraud_case dt .queryError title desc sev amount st srid cc cn cr td cs dr =
        some (buildFraudCase dt title desc sev amount st srid cc cn cr td cs dr)) := by
  constructor
  · intro tbl rid dt
    rfl
  · intro dt title desc sev amount st srid cc cn cr td cs dr
    simp [create_fraud_case, check_existing_case]

/-! ### C5: isolation of detector failures in `run_all_detectors` -/

/-- The entry a detector contributes to the factory's result mapping:
its detected cases, or the empty list when `detect()` raised. -/
def detectorEntry (d : DetectorSpec) : List Candidate :=
  match d.run with
  | .ok cases => cases
  | .error _ => []

/-- The factory's fold, restated: enabled detectors contribute their
entry in registration order, disabled ones contribute nothing. -/
theorem run_all_detectors_eq_filterMap (ds : List DetectorSpec) :
    run_all_detectors ds =
      ds.filterMap (fun d => if d.enabled then some (d.kind, detectorEntry d) else none) := by
  have key : ∀ (l : List DetectorSpec) (acc : List (String × List Candidate)),
      l.foldl
        (fun results d =>
          if d.enabled then
            match d.run with
            | .ok cases => results ++ [(d.kind, cases)]
            | .error _ => results ++ [(d.kind, [])]
          else results)
        acc
      = acc ++ l.filterMap (fun d => if d.enabled then some (d.kind, detectorEntry d) else none) := by
    intro l
    induction l with
    | nil => intro acc; simp
    | cons a t ih =>
      intro acc
      rcases ha : a.enabled with _ | _
      · simp [List.foldl_cons, List.filterMap_cons, ha, ih]
      · rcases hr : a.run with e | cases <;>
          simp [List.foldl_cons, List.filterMap_cons, ha, hr, ih, detectorEntry]
  exact key ds []

/-- Lookup in the filterMap form: with pairwise-distinct kinds, each
enabled detector's entry is found unchanged. -/
theorem lookup_run_entry (ds : List DetectorSpec)
    (hnodup : (ds.map DetectorSpec.kind).Nodup) :
    ∀ d ∈ ds, d.enabled = true →
      (ds.filterMap
        (fun d => if d.enabled then some (d.kind, detectorEntry d) else none)).lookup d.kind
        = some (detectorEntry d) := by
  induction ds with
  | nil => intro d hd; exact absurd hd (List.not_mem_nil d)
  | cons a t ih =>
    intro d hd hen
    rw [List.map_cons, List.nodup_cons] at hnodup
    rcases List.mem_cons.mp hd with rfl | hdt
    · simp [List.filterMap_cons, hen, List.lookup]
    · rcases ha : a.enabled with _ | _
      · simpa [List.filterMap_cons, ha] using ih hnodup.2 d hdt hen
      · have hne : (d.kind == a.kind) = false := by
          have : a.kind ≠ d.kind := fun h =>
            hnodup.1 (h ▸ List.mem_map_of_mem DetectorSpec.kind hdt)
          simp [Ne.symm this]
        simpa [List.filterMap_cons, ha, List.lookup, hne] using ih hnodup.2 d hdt hen

/-- C5: when some detector's `detect()` raises, `run_all_detectors`
still reports every other enabled detector's result list unchanged, and
the failing detector's entry is the empty list, not a propagated
exception. -/
theorem claim_C5_run_all_isolation (ds : List DetectorSpec)
    (hnodup : (ds.map DetectorSpec.kind).Nodup) :
    ∀ d ∈ ds, d.enabled = true →
      (run_all_detectors ds).lookup d.kind = some (detectorEntry d) := by
  intro d hd hen
  rw [run_all_detectors_eq_filterMap]
  exact lookup_run_entry ds hnodup d hd hen

/-- A registry of three enabled detectors whose middle entry raises. -/
def specRegistryA : DetectorSpec :=
  ⟨("DET_A"), true,
   .ok [buildFraudCase .INVOICE_ANOMALY ("t") ("d") .LOW none none none none none none
          .null none none]⟩

/-- The detector configured to throw on `detect()`. -/
def specRegistryB : DetectorSpec := ⟨("DET_B"), true, .error ("boom")⟩

/-- The third registered detector. -/
def specRegistryC : DetectorSpec :=
  ⟨("DET_C"), true,
   .ok [buildFraudCase .FUEL_THEFT ("t2") ("d2") .HIGH none none none none none none
          .null none none]⟩

/-- C5 witness: with three registered detectors of which the second
throws, the mapping holds the other two results non-empty and the empty
list for the failing one. -/
theorem claim_C5_run_all_isolation_witness :
    (run_all_detectors [specRegistryA, specRegistryB, specRegistryC]).lookup ("DET_B")
        = some [] ∧
    (run_all_detectors [specRegistryA, specRegistryB, specRegistryC]).lookup ("DET_A")
        = some (detectorEntry specRegistryA) ∧
    (run_all_detectors [specRegistryA, specRegistryB, specRegistryC]).lookup ("DET_C")
        = some (detectorEntry specRegistryC) ∧
    detectorEntry specRegistryA ≠ [] ∧ detectorEntry specRegistryC ≠ [] := by
  refine ⟨?_, ?_, ?_, ?_, ?_⟩
  · have h := claim_C5_run_all_isolation [specRegistryA, specRegistryB, specRegistryC]
      (by decide) specRegistryB
      (List.mem_cons_of_mem _ (List.mem_cons_self _ _)) rfl
    simpa [specRegistryB, detectorEntry] using h
  · exact claim_C5_run_all_isolation [specRegistryA, specRegistryB, specRegistryC]
      (by decide) specRegistryA (List.mem_cons_self _ _) rfl
  · exact claim_C5_run_all_isolation [specRegistryA, specRegistryB, specRegistryC]
      (by decide) specRegistryC
      (List.mem_cons_of_mem _ (List.mem_cons_of_mem _ (List.mem_cons_self _ _))) rfl
  · simp [specRegistryA, detectorEntry]
  · simp [specRegistryC, detectorEntry]

/-! ### C2: excessive-discount heuristic -/

/-- `str` of a present string is itself. -/
theorem pyStr_some (s : String) : pyStr (some s) = s := rfl

/-- A string known to be non-empty has `isEmpty = false`. -/
theorem isEmpty_eq_false_of_ne (s : String) (h : s ≠ "") : s.isEmpty = false := by
  rcases hb : s.isEmpty with _ | _
  · rfl
  · exact absurd ((String.isEmpty_iff s).mp hb) h

/-- When the discount percentage is above 30, `emitDescuento` on an
empty store returns the built candidate. -/
theorem emitDescuento_fires (f : DctoRow)
    (hd : 0 < safe_float f.DSC_DCTO 0) (hn : 0 < safe_float f.TNI_DCTO 0)
    (h30 : 30 < descuentoPct (safe_float f.DSC_DCTO 0) (safe_float f.TNI_DCTO 0)) :
    emitDescuento (.ok []) f = some (buildFraudCase .INVOICE_ANOMALY
      ("Descuento excesivo - Factura " ++ pyStr f.NUM_DCTO)
      ("Descuento del " ++
        fmtQ (descuentoPct (safe_float f.DSC_DCTO 0) (safe_float f.TNI_DCTO 0)) ++
        "% detectado. Monto original: $" ++ fmtQ (safe_float f.TNI_DCTO 0) ++
        ", Descuento: $" ++ fmtQ (safe_float f.DSC_DCTO 0))
      (if 50 < descuentoPct (safe_float f.DSC_DCTO 0) (safe_float f.TNI_DCTO 0)
       then .HIGH else .MEDIUM)
      (some (safe_float f.DSC_DCTO 0)) (some ("DCTO")) (some (pyStr f.SEC_DCTO))
      f.COD_CLIE f.NOM_CLIE f.RUC_CLIE f.FEC_DCTO (some 85)
      (some [(("rule"), .s ("descuento_excesivo")),
             (("porcentaje"),
              .q (descuentoPct (safe_float f.DSC_DCTO 0) (safe_float f.TNI_DCTO 0)))])) := by
  simp only [emitDescuento]
  rw [if_pos ⟨hd, hn⟩, if_pos h30]
  simp [create_fraud_case, check_existing_case]

/-- A concrete discount invoice with net 1000 and the given discount. -/
def rowDescC2 (dsc : ℚ) : DctoRow :=
  ⟨some ("77"), some ("FC"), some ("F-77"), .null, some ("C1"), some 1000, none, none,
   some dsc, none, none⟩

/-- C2: for invoices with positive discount and positive net, the
excessive-discount heuristic emits one candidate for the invoice itself
exactly when discount/net exceeds 30%, HIGH above 50% and MEDIUM
otherwise, confidence fixed at 85; net 1000 with discount 300 is not
flagged, 301 is MEDIUM, 501 is HIGH. -/
theorem claim_C2_descuento_boundary :
    (∀ f : DctoRow,
      0 < safe_float f.DSC_DCTO 0 → 0 < safe_float f.TNI_DCTO 0 →
      (descuentoPct (safe_float f.DSC_DCTO 0) (safe_float f.TNI_DCTO 0)
          = safe_float f.DSC_DCTO 0 / safe_float f.TNI_DCTO 0 * 100) ∧
      (30 < safe_float f.DSC_DCTO 0 / safe_float f.TNI_DCTO 0 * 100 →
        (_detect_descuentos_excesivos (.ok []) [f]).map Candidate.severity
            = [if 50 < safe_float f.DSC_DCTO 0 / safe_float f.TNI_DCTO 0 * 100
               then FraudSeverity.HIGH else FraudSeverity.MEDIUM] ∧
        (_detect_descuentos_excesivos (.ok []) [f]).map Candidate.confidence_score
            = [some 85] ∧
        (_detect_descuentos_excesivos (.ok []) [f]).map Candidate.detector_type
            = [.INVOICE_ANOMALY] ∧
        (pyStr f.SEC_DCTO ≠ "" →
          (_detect_descuentos_excesivos (.ok []) [f]).map Candidate.source_record_id
              = [some (pyStr f.SEC_DCTO)])) ∧
      (safe_float f.DSC_DCTO 0 / safe_float f.TNI_DCTO 0 * 100 ≤ 30 →
        _detect_descuentos_excesivos (.ok []) [f] = [])) ∧
    _detect_descuentos_excesivos (.ok []) [rowDescC2 300] = [] ∧
    (_detect_descuentos_excesivos (.ok []) [rowDescC2 301]).map Candidate.severity
        = [FraudSeverity.MEDIUM] ∧
    (_detect_descuentos_excesivos (.ok []) [rowDescC2 501]).map Candidate.severity
        = [FraudSeverity.HIGH] := by
  refine ⟨?_, by with_unfolding_all rfl, by with_unfolding_all rfl,
    by with_unfolding_all rfl⟩
  intro f hd hn
  have hne : safe_float f.TNI_DCTO 0 ≠ 0 := ne_of_gt hn
  have hpct : descuentoPct (safe_float f.DSC_DCTO 0) (safe_float f.TNI_DCTO 0)
      = safe_float f.DSC_DCTO 0 / safe_float f.TNI_DCTO 0 * 100 := by
    show (if safe_float f.TNI_DCTO 0 = 0 then (0 : ℚ)
          else safe_float f.DSC_DCTO 0 / safe_float f.TNI_DCTO 0) * 100
        = safe_float f.DSC_DCTO 0 / safe_float f.TNI_DCTO 0 * 100
    rw [if_neg hne]
  refine ⟨hpct, ?_, ?_⟩
  · intro h30
    have h30' : 30 < descuentoPct (safe_float f.DSC_DCTO 0) (safe_float f.TNI_DCTO 0) :=
      hpct ▸ h30
    have hemit := emitDescuento_fires f hd hn h30'
    refine ⟨?_, ?_, ?_, ?_⟩
    · simp [_detect_descuentos_excesivos, List.filterMap_cons, hemit, buildFraudCase, hpct]
    · simp [_detect_descuentos_excesivos, List.filterMap_cons, hemit, buildFraudCase]
    · simp [_detect_descuentos_excesivos, List.filterMap_cons, hemit, buildFraudCase]
    · intro hne2
      have hie : (pyStr f.SEC_DCTO).isEmpty = false := isEmpty_eq_false_of_ne _ hne2
      simp [_detect_descuentos_excesivos, List.filterMap_cons, hemit, buildFraudCase,
            strFieldIfTruthy, truthyOptStr, hie, pyStr_some]
  · intro hle
    have hle' : ¬ 30 < descuentoPct (safe_float f.DSC_DCTO 0) (safe_float f.TNI_DCTO 0) := by
      rw [hpct]; exact not_lt.mpr hle
    have hemit : emitDescuento (.ok []) f = none := by
      simp only [emitDescuento]
      rw [if_pos ⟨hd, hn⟩, if_neg hle']
    simp [_detect_descuentos_excesivos, List.filterMap_cons, hemit]

/-- C2 witness: the per-invoice statement applied at net 1000,
discount 301. -/
theorem claim_C2_descuento_boundary_witness :
    (_detect_descuentos_excesivos (.ok []) [rowDescC2 301]).map Candidate.confidence_score
        = [some 85] ∧
    (_detect_descuentos_excesivos (.ok []) [rowDescC2 301]).map Candidate.source_record_id
        = [some ("77")] := by
  have h := (claim_C2_descuento_boundary.1 (rowDescC2 301)
      (by show (0 : ℚ) < 301; norm_num)
      (by show (0 : ℚ) < 1000; norm_num)).2.1
      (by show (30 : ℚ) < 301 / 1000 * 100; norm_num)
  refine ⟨h.2.1, ?_⟩
  have h4 := h.2.2.2 (by simp [rowDescC2, pyStr])
  simpa [rowDescC2, pyStr] using h4

/-! ### C3: round-amount clustering -/

/-- An empty store holds no case. -/
theorem check_empty_store (t r : String) (dt : DetectorType) :
    check_existing_case (.ok []) t r dt = false := rfl

/-- Against an empty store, `create_fraud_case` always returns the built
candidate. -/
theorem create_fraud_case_ok_nil (dt : DetectorType) (title desc : String)
    (sev : FraudSeverity) (amount : Option ℚ)
    (st srid cc cn cr : Option String) (td : FbDateValue) (cs : Option ℚ)
    (dr : Option (List (String × RuleVal))) :
    create_fraud_case dt (.ok []) title desc sev amount st srid cc cn cr td cs dr =
      some (buildFraudCase dt title desc sev amount st srid cc cn cr td cs dr) := by
  simp [create_fraud_case, check_existing_case]

/-- The Python float test `total % 100 == 0` recognises exactly the
integer multiples of 100. -/
theorem isMultipleOf100_iff (t : ℚ) :
    isMultipleOf100 t = true ↔ ∃ k : ℤ, t = 100 * k := by
  constructor
  · intro h
    have hden : (t / 100).den = 1 := by
      simp only [isMultipleOf100, beq_iff_eq] at h
      exact h
    refine ⟨(t / 100).num, ?_⟩
    have h2 : ((t / 100).num : ℚ) = t / 100 := (Rat.den_eq_one_iff (t / 100)).mp hden
    rw [h2, mul_div_cancel₀]
    norm_num
  · rintro ⟨k, rfl⟩
    have hden : ((100 : ℚ) * k / 100).den = 1 := by
      rw [mul_div_cancel_left₀]
      · exact Rat.den_intCast k
      · norm_num
    simp only [isMultipleOf100, beq_iff_eq]
    exact hden

/-- The round-group relation proved between each emitted candidate and
its qualifying client group. -/
def RoundGroupRel (c : Candidate) (g : Option String × List DctoRow) : Prop :=
  c.severity = (if g.2.length < 5 then FraudSeverity.MEDIUM else FraudSeverity.HIGH) ∧
  c.confidence_score = some 75 ∧
  c.source_record_id = some (roundGroupId g.1 g.2.length) ∧
  c.detector_type = .INVOICE_ANOMALY ∧ 3 ≤ g.2.length

/-- `emitRoundGroup` against an empty store emits nothing exactly for
the groups below the 3-invoice floor. -/
theorem emitRoundGroup_none_iff (g : Option String × List DctoRow) :
    emitRoundGroup (.ok []) g = none ↔ (decide (3 ≤ g.2.length)) = false := by
  by_cases h3 : 3 ≤ g.2.length
  · simp only [emitRoundGroup, if_pos h3, check_empty_store, Bool.false_eq_true, if_false,
      create_fraud_case_ok_nil]
    simp [h3]
  · simp only [emitRoundGroup, if_neg h3]
    simp [h3]

/-- `emitRoundGroup` against an empty store only emits candidates
satisfying the round-group relation. -/
theorem emitRoundGroup_some_rel (g : Option String × List DctoRow) (c : Candidate)
    (h : emitRoundGroup (.ok []) g = some c) : RoundGroupRel c g := by
  by_cases h3 : 3 ≤ g.2.length
  · rw [emitRoundGroup, if_pos h3] at h
    simp only [check_empty_store, Bool.false_eq_true, if_false,
      create_fraud_case_ok_nil, Option.some.injEq] at h
    have hie : (roundGroupId g.1 g.2.length).isEmpty = false := by
      apply groupId_isEmpty_false
      decide
    subst h
    refine ⟨rfl, rfl, ?_, rfl, h3⟩
    simp [buildFraudCase, strFieldIfTruthy, truthyOptStr, hie, pyStr_some]
  · rw [emitRoundGroup, if_neg h3] at h
    exact absurd h (by simp)

/-- C3: the round-amount heuristic classifies an invoice as round
exactly when `net + tax-exempt + tax` is strictly above 500 and an exact
multiple of 100 (600 qualifies, 650 and 500 do not), and, per client
group with at least 3 round invoices, emits exactly one candidate with
severity MEDIUM below 5 and HIGH otherwise and confidence fixed
at 75. -/
theorem claim_C3_montos_redondos :
    (∀ t : ℚ, isRoundTotal t = true ↔ (500 < t ∧ ∃ k : ℤ, t = 100 * k)) ∧
    (isRoundTotal 600 = true ∧ isRoundTotal 650 = false ∧ isRoundTotal 500 = false) ∧
    (∀ f : DctoRow, invoiceTotal f
        = safe_float f.TNI_DCTO 0 + safe_float f.TSI_DCTO 0 + safe_float f.IVA_DCTO 0) ∧
    (∀ rows : List DctoRow,
      List.Forall₂ RoundGroupRel
        (_detect_montos_redondos (.ok []) rows)
        ((groupByKey (fun f => f.COD_CLIE)
            (rows.filter fun f => isRoundTotal (invoiceTotal f))).filter
          (fun g => decide (3 ≤ g.2.length)))) := by
  refine ⟨?_, ⟨by with_unfolding_all rfl, by with_unfolding_all rfl,
    by with_unfolding_all rfl⟩, fun f => rfl, ?_⟩
  · intro t
    simp only [isRoundTotal, Bool.and_eq_true, decide_eq_true_eq]
    exact and_congr Iff.rfl (isMultipleOf100_iff t)
  · intro rows
    exact forall₂_filterMap_filter (emitRoundGroup (.ok []))
      (fun g => decide (3 ≤ g.2.length)) RoundGroupRel emitRoundGroup_none_iff
      emitRoundGroup_some_rel _

/-! ### C4: fuel dispatch overcapacity -/

/-- The relation proved between each overcapacity candidate and its
dispatch row. -/
def ConsumoRel (c : Candidate) (d : DespRow) : Prop :=
  c.severity = (if 300 < dispatchQty d then FraudSeverity.HIGH else FraudSeverity.MEDIUM) ∧
  c.confidence_score = some 85 ∧
  c.source_record_id = strFieldIfTruthy (some (pyStr d.NUM_DESP)) ∧
  c.detector_type = .FUEL_THEFT ∧ 200 < dispatchQty d

/-- `emitConsumo` against an empty store emits nothing exactly for the
dispatches at or below 200 units. -/
theorem emitConsumo_none_iff (clientes : List (String × ClientInfo)) (d : DespRow) :
    emitConsumo (.ok []) clientes d = none ↔ (decide (200 < dispatchQty d)) = false := by
  by_cases h200 : 200 < dispatchQty d
  · simp only [emitConsumo, if_pos h200, create_fraud_case_ok_nil]
    simp [h200]
  · simp only [emitConsumo, if_neg h200]
    simp [h200]

/-- `emitConsumo` against an empty store only emits candidates
satisfying the overcapacity relation. -/
theorem emitConsumo_some_rel (clientes : List (String × ClientInfo)) (d : DespRow)
    (c : Candidate) (h : emitConsumo (.ok []) clientes d = some c) : ConsumoRel c d := by
  by_cases h200 : 200 < dispatchQty d
  · simp only [emitConsumo, if_pos h200, create_fraud_case_ok_nil,
      Option.some.injEq] at h
    subst h
    exact ⟨rfl, rfl, rfl, rfl, h200⟩
  · simp only [emitConsumo, if_neg h200] at h
    exact absurd h (by simp)

/-- A concrete dispatch row with the given quantity. -/
def despRowC4 (q : ℚ) : DespRow :=
  ⟨some ("D1"), .null, some q, some 100, none, none, some ("C1")⟩

/-- C4: the overcapacity heuristic emits one candidate per dispatch
exactly when the dispatched quantity is strictly above 200 (the SQL
pre-filter at 150 never masks any of these), with severity HIGH above
300 and MEDIUM otherwise and confidence 85; quantity 200 is not
flagged, 201 is MEDIUM, 301 is HIGH. -/
theorem claim_C4_consumo_anormal :
    (∀ (clientes : List (String × ClientInfo)) (desp : List DespRow),
      List.Forall₂ ConsumoRel
        (_detect_consumo_anormal (.ok []) clientes desp)
        (desp.filter fun d => decide (200 < dispatchQty d))) ∧
    _detect_consumo_anormal (.ok []) [] [despRowC4 200] = [] ∧
    (_detect_consumo_anormal (.ok []) [] [despRowC4 201]).map Candidate.severity
        = [FraudSeverity.MEDIUM] ∧
    (_detect_consumo_anormal (.ok []) [] [despRowC4 301]).map Candidate.severity
        = [FraudSeverity.HIGH] := by
  refine ⟨?_, by with_unfolding_all rfl, by with_unfolding_all rfl,
    by with_unfolding_all rfl⟩
  intro clientes desp
  have h1 := forall₂_filterMap_filter (emitConsumo (.ok []) clientes)
    (fun d => decide (200 < dispatchQty d)) ConsumoRel
    (emitConsumo_none_iff clientes) (emitConsumo_some_rel clientes)
    (despQueryCan150 desp)
  have h2 : (despQueryCan150 desp).filter (fun d => decide (200 < dispatchQty d))
      = desp.filter (fun d => decide (200 < dispatchQty d)) := by
    unfold despQueryCan150
    rw [List.filter_filter]
    apply List.filter_congr
    intro d _
    rcases hc : d.CAN_DESP with _ | v
    · have hn : ¬ (200 : ℚ) < 0 := by norm_num
      simp [dispatchQty, safe_float, hc, hn]
    · by_cases h200 : (200 : ℚ) < v
      · have h150 : (150 : ℚ) < v := lt_trans (by norm_num) h200
        simp [dispatchQty, safe_float, hc, h200, h150]
      · simp [dispatchQty, safe_float, hc, h200]
  rw [h2] at h1
  exact h1

/-! ### C8: after-hours transactions -/

/-- The relation proved between each after-hours candidate and its
qualifying client group. -/
def AfterhoursRel (c : Candidate) (g : Option String × List DctoRow) : Prop :=
  c.severity = (if g.2.length < 5 then FraudSeverity.MEDIUM else FraudSeverity.HIGH) ∧
  c.confidence_score = some 80 ∧
  c.source_record_id = some (afterhoursGroupId g.1 g.2.length) ∧
  c.detector_type = .INVOICE_ANOMALY ∧ 2 ≤ g.2.length

/-- `emitAfterhoursGroup` against an empty store emits nothing exactly
for the groups below the 2-invoice floor. -/
theorem emitAfterhoursGroup_none_iff (g : Option String × List DctoRow) :
    emitAfterhoursGroup (.ok []) g = none ↔ (decide (2 ≤ g.2.length)) = false := by
  by_cases h2 : 2 ≤ g.2.length
  · simp only [emitAfterhoursGroup, if_pos h2, check_empty_store, Bool.false_eq_true,
      if_false, create_fraud_case_ok_nil]
    simp [h2]
  · simp only [emitAfterhoursGroup, if_neg h2]
    simp [h2]

/-- `emitAfterhoursGroup` against an empty store only emits candidates
satisfying the after-hours relation. -/
theorem emitAfterhoursGroup_some_rel (g : Option String × List DctoRow) (c : Candidate)
    (h : emitAfterhoursGroup (.ok []) g = some c) : AfterhoursRel c g := by
  by_cases h2 : 2 ≤ g.2.length
  · rw [emitAfterhoursGroup, if_pos h2] at h
    simp only [check_empty_store, Bool.false_eq_true, if_false,
      create_fraud_case_ok_nil, Option.some.injEq] at h
    have hie : (afterhoursGroupId g.1 g.2.length).isEmpty = false := by
      apply groupId_isEmpty_false
      decide
    subst h
    refine ⟨rfl, rfl, ?_, rfl, h2⟩
    simp [buildFraudCase, strFieldIfTruthy, truthyOptStr, hie, pyStr_some]
  · rw [emitAfterhoursGroup, if_neg h2] at h
    exact absurd h (by simp)

/-- C8: an invoice is after-hours exactly when its parsed timestamp's
hour is below 7 or above 20 or its weekday is Saturday or Sunday;
unparseable timestamps are excluded from the classification; per client
group with at least 2 after-hours invoices exactly one candidate is
emitted, severity MEDIUM below 5 and HIGH otherwise, confidence fixed
at 80. -/
theorem claim_C8_fuera_horario :
    (∀ t : PyDateTime, isAfterHoursDT t = true ↔
        (t.hour < 7 ∨ 20 < t.hour ∨ t.weekday = 5 ∨ t.weekday = 6)) ∧
    (∀ (rows : List DctoRow) (f : DctoRow),
        parse_firebird_date f.FEC_DCTO = none → f ∉ afterHoursRows rows) ∧
    (∀ rows : List DctoRow,
      List.Forall₂ AfterhoursRel
        (_detect_fuera_horario (.ok []) rows)
        ((groupByKey (fun f => f.COD_CLIE) (afterHoursRows rows)).filter
          (fun g => decide (2 ≤ g.2.length)))) := by
  refine ⟨?_, ?_, ?_⟩
  · intro t
    simp [isAfterHoursDT]
    tauto
  · intro rows f hparse hmem
    have hpred := List.of_mem_filter hmem
    rw [hparse] at hpred
    simp at hpred
  · intro rows
    exact forall₂_filterMap_filter (emitAfterhoursGroup (.ok []))
      (fun g => decide (2 ≤ g.2.length)) AfterhoursRel emitAfterhoursGroup_none_iff
      emitAfterhoursGroup_some_rel _

/-- The invoice with the malformed date string, used to witness the
after-hours exclusion. -/
def rowBadDateC8 : DctoRow :=
  ⟨some ("9"), some ("FC"), some ("F9"), .str ("31/2/2025 9:5:3"), some ("C3"),
   some 100, none, none, none, none, none⟩

/-- C8 witness: the malformed-date invoice is excluded from the
after-hours row set, and a Saturday-noon timestamp classifies as
after-hours. -/
theorem claim_C8_fuera_horario_witness :
    rowBadDateC8 ∉ afterHoursRows [rowBadDateC8] ∧
    isAfterHoursDT ⟨2025, 10, 11, 12, 0, 0⟩ = true := by
  constructor
  · exact claim_C8_fuera_horario.2.1 [rowBadDateC8] rowBadDateC8 (by rfl)
  · exact (claim_C8_fuera_horario.1 ⟨2025, 10, 11, 12, 0, 0⟩).mpr
      (Or.inr (Or.inr (Or.inl (by rfl))))

/-! ### C1: idempotence of the round-amount detector against a
retaining store -/

/-- A store holding the group's `ROUND_AMOUNT`-keyed case blocks the
emission at the heuristic's explicit duplicate check. -/
theorem emitRound_none_of_round_key (keys : List CaseKey)
    (g : Option String × List DctoRow)
    (h : (⟨("DCTO"), roundGroupId g.1 g.2.length, .ROUND_AMOUNT⟩ : CaseKey) ∈ keys) :
    emitRoundGroup (.ok keys) g = none := by
  by_cases h3 : 3 ≤ g.2.length
  · have hchk : check_existing_case (.ok keys) ("DCTO")
        (roundGroupId g.1 g.2.length) .ROUND_AMOUNT = true := by
      simp [check_existing_case, h]
    simp only [emitRoundGroup, if_pos h3, hchk, if_true]
  · simp only [emitRoundGroup, if_neg h3]

/-- A store holding the group's `INVOICE_ANOMALY`-keyed case blocks the
emission inside `create_fraud_case`. -/
theorem emitRound_none_of_inv_key (keys : List CaseKey)
    (g : Option String × List DctoRow)
    (h : (⟨("DCTO"), roundGroupId g.1 g.2.length, .INVOICE_ANOMALY⟩ : CaseKey) ∈ keys) :
    emitRoundGroup (.ok keys) g = none := by
  by_cases h3 : 3 ≤ g.2.length
  · have hgid : (roundGroupId g.1 g.2.length).isEmpty = false := by
      apply groupId_isEmpty_false
      decide
    have hdcto : ("DCTO" : String).isEmpty = false := rfl
    have hchk : check_existing_case (.ok keys) ("DCTO")
        (roundGroupId g.1 g.2.length) .INVOICE_ANOMALY = true := by
      simp [check_existing_case, h]
    rcases hR : check_existing_case (.ok keys) ("DCTO")
        (roundGroupId g.1 g.2.length) .ROUND_AMOUNT with _ | _
    · simp only [emitRoundGroup, if_pos h3, hR, Bool.false_eq_true, if_false]
      simp [create_fraud_case, truthyOptStr, hgid, hdcto, pyStr_some, hchk]
    · simp only [emitRoundGroup, if_pos h3, hR, if_true]
  · simp only [emitRoundGroup, if_neg h3]

/-- Any candidate `emitRoundGroup` emits (against any store) carries the
synthesized group key as its source record id. -/
theorem emitRound_some_srid (store : CaseStore) (g : Option String × List DctoRow)
    (c : Candidate) (h : emitRoundGroup store g = some c) :
    c.source_record_id = some (roundGroupId g.1 g.2.length) := by
  simp only [emitRoundGroup] at h
  split at h
  · split at h
    · exact absurd h (by simp)
    · simp only [create_fraud_case] at h
      split at h
      · exact absurd h (by simp)
      · have hgid : (roundGroupId g.1 g.2.length).isEmpty = false := by
          apply groupId_isEmpty_false
          decide
        simp only [Option.some.injEq] at h
        subst h
        simp [buildFraudCase, strFieldIfTruthy, truthyOptStr, hgid, pyStr_some]
  · exact absurd h (by simp)

/-- When `emitRoundGroup` emits nothing, either the group is below the
floor or the store already holds one of the two keys it is checked
against. -/
theorem emitRound_none_cases (store : CaseStore) (g : Option String × List DctoRow)
    (h : emitRoundGroup store g = none) :
    ¬ 3 ≤ g.2.length ∨
    (⟨("DCTO"), roundGroupId g.1 g.2.length, .ROUND_AMOUNT⟩ : CaseKey) ∈ storeKeys store ∨
    (⟨("DCTO"), roundGroupId g.1 g.2.length, .INVOICE_ANOMALY⟩ : CaseKey)
        ∈ storeKeys store := by
  by_cases h3 : 3 ≤ g.2.length
  · right
    simp only [emitRoundGroup, if_pos h3] at h
    split at h
    next hchk =>
      left
      rcases store with keys | _
      · simp only [check_existing_case] at hchk
        simpa [storeKeys] using hchk
      · simp [check_existing_case] at hchk
    next hnchk =>
      right
      simp only [create_fraud_case] at h
      split at h
      next hguard =>
        have hchk := (Bool.and_eq_true_iff.mp hguard).2
        rcases store with keys | _
        · simp only [check_existing_case] at hchk
          simpa [storeKeys, pyStr_some] using hchk
        · simp [check_existing_case] at hchk
      next hnguard =>
        exact absurd h (by simp)
  · left
    exact h3

/-- C1: running the round-amount heuristic a second time against the
same dataset and a store that kept the first run's cases (and whatever
it held before) yields no candidate: the synthesized group key is a
function of the group's client and count alone, so each second-run
candidate is rejected by the duplicate check inside
`create_fraud_case`. -/
theorem claim_C1_second_run_empty :
    (∀ (cliente : Option String) (count : Nat),
      roundGroupId cliente count = "ROUND_" ++ pyStr cliente ++ "_" ++ toString count) ∧
    (∀ (rows : List DctoRow) (store0 : CaseStore) (keys1 : List CaseKey),
      (∀ k ∈ storeKeys store0, k ∈ keys1) →
      (∀ c ∈ _detect_montos_redondos store0 rows,
        (⟨("DCTO"), c.source_record_id.getD (""), .INVOICE_ANOMALY⟩ : CaseKey) ∈ keys1) →
      _detect_montos_redondos (.ok keys1) rows = []) := by
  refine ⟨fun cliente count => rfl, ?_⟩
  intro rows store0 keys1 hsub hrun1
  show List.filterMap (emitRoundGroup (.ok keys1))
      (groupByKey (fun f => f.COD_CLIE)
        (rows.filter fun f => isRoundTotal (invoiceTotal f))) = []
  apply List.filterMap_eq_nil_iff.mpr
  intro g hg
  rcases hemit0 : emitRoundGroup store0 g with _ | c
  · rcases emitRound_none_cases store0 g hemit0 with h3 | hk | hk
    · simp only [emitRoundGroup, if_neg h3]
    · exact emitRound_none_of_round_key keys1 g (hsub _ hk)
    · exact emitRound_none_of_inv_key keys1 g (hsub _ hk)
  · have hc1 : c ∈ _detect_montos_redondos store0 rows := by
      show c ∈ List.filterMap (emitRoundGroup store0)
        (groupByKey (fun f => f.COD_CLIE)
          (rows.filter fun f => isRoundTotal (invoiceTotal f)))
      exact List.mem_filterMap.mpr ⟨g, hg, hemit0⟩
    have hkey := hrun1 c hc1
    rw [emitRound_some_srid store0 g c hemit0] at hkey
    exact emitRound_none_of_inv_key keys1 g (by simpa using hkey)

/-- Three round invoices of one client, the first run's dataset. -/
def rowRoundC1 (sec : String) (t : ℚ) : DctoRow :=
  ⟨some sec, some ("FC"), some sec, .null, some ("C1"), some t, some 0, some 0, none,
   some ("ACME"), none⟩

/-- The first-run dataset of the idempotence witness. -/
def rowsC1 : List DctoRow :=
  [rowRoundC1 ("1") 600, rowRoundC1 ("2") 700, rowRoundC1 ("3") 800]

/-- The store after the first run: it holds the group's persisted case
keyed by the detector class's `INVOICE_ANOMALY` kind. -/
def keys1C1 : List CaseKey := [⟨("DCTO"), ("ROUND_C1_3"), .INVOICE_ANOMALY⟩]

/-- C1 witness: on the concrete dataset the first run emits a case and
the second run against the retaining store emits nothing. -/
theorem claim_C1_second_run_empty_witness :
    _detect_montos_redondos (.ok keys1C1) rowsC1 = [] ∧
    _detect_montos_redondos (.ok []) rowsC1 ≠ [] := by
  constructor
  · exact claim_C1_second_run_empty.2 rowsC1 (.ok []) keys1C1
      (by simp [storeKeys]) (by with_unfolding_all decide)
  · with_unfolding_all decide

/-! ### C9: minimum-volume precondition of the sequence-gap heuristic -/

/-- C9: a document type with fewer than 10 records carrying an
extractable number is skipped outright — no candidate regardless of how
large or numerous its gaps are — so when every type is below the floor
the heuristic emits nothing at all. -/
theorem claim_C9_seq_min_volume :
    (∀ (store : CaseStore) (tipo : Option String) (docs : List SeqDoc),
      docs.length < 10 → emitSeqGaps store tipo docs = none) ∧
    (∀ (store : CaseStore) (rows : List DctoRow),
      (∀ g ∈ seqGroups rows, g.2.length < 10) →
      _detect_secuencias_faltantes store rows = []) := by
  have h1 : ∀ (store : CaseStore) (tipo : Option String) (docs : List SeqDoc),
      docs.length < 10 → emitSeqGaps store tipo docs = none := by
    intro store tipo docs h
    simp only [emitSeqGaps, if_pos h]
  refine ⟨h1, ?_⟩
  intro store rows hall
  show List.filterMap (fun g => emitSeqGaps store g.1 g.2) (seqGroups rows) = []
  apply List.filterMap_eq_nil_iff.mpr
  intro g hg
  exact h1 store g.1 g.2 (hall g hg)

/-- An `FC` document row whose number is the given string. -/
def seqRowC9 (n : String) : DctoRow :=
  ⟨some n, some ("FC"), some n, .null, none, none, none, none, none, none, none⟩

/-- Nine documents of one type with eight consecutive gaps of 100. -/
def rowsC9 : List DctoRow :=
  [seqRowC9 ("100"), seqRowC9 ("200"), seqRowC9 ("300"), seqRowC9 ("400"),
   seqRowC9 ("500"), seqRowC9 ("600"), seqRowC9 ("700"), seqRowC9 ("800"),
   seqRowC9 ("900")]

/-- The extractable documents of the witness dataset. -/
def docsC9 : List SeqDoc := rowsC9.filterMap toSeqDoc

/-- C9 witness: the nine-document type has eight gaps above 10 yet the
heuristic emits nothing, per group and for the whole run. -/
theorem claim_C9_seq_min_volume_witness :
    emitSeqGaps (.ok []) (some ("FC")) docsC9 = none ∧
    _detect_secuencias_faltantes (.ok []) rowsC9 = [] ∧
    2 ≤ (gapSizes (seqSorted docsC9)).length := by
  refine ⟨?_, ?_, by decide⟩
  · exact claim_C9_seq_min_volume.1 (.ok []) (some ("FC")) docsC9 (by decide)
  · exact claim_C9_seq_min_volume.2 (.ok []) rowsC9 (by decide)

/-! ### C6: massive same-day changes — the heuristic cannot emit

`_detect_cambios_masivos` calls `create_fraud_case` with the keyword
argument `created_by`, which `BaseDetector.create_fraud_case` does not
declare: the call raises `TypeError` before anything is appended, the
heuristic's `except` swallows it, and the contribution is always the
empty list — the spec's "one candidate per (user, day) group with more
than 20 edits" can never happen. -/

/-- The accumulator passes through the loop untouched: every path
either skips the group or aborts at the raising `create_fraud_case`
call. -/
theorem cambiosMasivosLoop_acc (store : CaseStore) (acc : List Candidate) :
    ∀ gs : List (String × MassGroup), cambiosMasivosLoop store acc gs = acc := by
  intro gs
  induction gs with
  | nil => rfl
  | cons g rest ih =>
    simp only [cambiosMasivosLoop]
    split
    · split
      · exact ih
      · rfl
    · exact ih

/-- The 21 same-day edits of one user inside the window. -/
def rowsC6 : List XdctoRow :=
  List.replicate 21 (⟨some ("U1"), .dt ⟨2025, 10, 1, 10, 0, 0⟩⟩ : XdctoRow)

/-- The 7-day window floor used with the witness rows. -/
def limC6 : PyDateTime := ⟨2025, 9, 28, 0, 0, 0⟩

/-- C6: the massive same-day-changes heuristic emits no candidate on
any input — in particular a user with 21 edits in one day, which the
spec says must produce one MEDIUM candidate with confidence 80, forms a
qualifying group of count 21 and still yields nothing, because the
`create_fraud_case(..., created_by=...)` call raises `TypeError`. -/
theorem claim_C6_cambios_masivos_never_emits :
    (∀ (store : CaseStore) (fechaLimite : PyDateTime) (rows : List XdctoRow),
      _detect_cambios_masivos store fechaLimite rows = []) ∧
    (massGroups limC6 rowsC6).map (fun g => g.2.count) = [21] ∧
    _detect_cambios_masivos (.ok []) limC6 rowsC6 = [] := by
  have hall : ∀ (store : CaseStore) (fechaLimite : PyDateTime) (rows : List XdctoRow),
      _detect_cambios_masivos store fechaLimite rows = [] := by
    intro store fechaLimite rows
    exact cambiosMasivosLoop_acc store [] (massGroups fechaLimite rows)
  exact ⟨hall, by decide, hall _ _ _⟩

end FraudDetection
